import Mathlib

/-!
Verification of the PhishLense threat-analysis core against its design
specification.  Definitions are shallow embeddings of the Python source in
`backend/api/` (`openai_service.py`, `services.py`, `media_views.py`,
`views.py`).  External collaborators — the Django cache clock, the OpenAI
completion call, the HTTP fetch, and the JSON decoder — are modelled as
explicit inputs threaded through the functions.
-/

namespace PhishLense

/-! ## String helpers

Models of the Python string primitives the heuristics are written with. -/

/-- Lower-casing of a string, modelling Python `str.lower()` on the ASCII
texts the heuristics operate over. -/
def strLower (s : String) : String := ⟨s.data.map Char.toLower⟩

/-- Test whether `needle` occurs at the very start of `hay`. -/
def matchHere : List Char → List Char → Bool
  | [], _ => true
  | _ :: _, [] => false
  | a :: as, b :: bs => a = b && matchHere as bs

/-- Test whether `needle` occurs anywhere inside `hay`. -/
def hasSubList (needle : List Char) : List Char → Bool
  | [] => matchHere needle []
  | b :: bs => matchHere needle (b :: bs) || hasSubList needle bs

/-- Substring containment, modelling Python `needle in hay` and `re.search`
applied to a pattern that is a plain literal (no metacharacters). -/
def strContains (hay needle : String) : Bool :=
  hasSubList needle.data hay.data

/-- Test whether `s` starts with `pre`, modelling Python `str.startswith`. -/
def strBeginsWith (s pre : String) : Bool :=
  matchHere pre.data s.data

/-! ## Django cache model

`RateLimiter` stores its per-key counters in the Django cache via
`cache.get(key, 0)` and `cache.set(key, value, timeout)`.  The cache is
modelled as a per-key store of entries carrying an absolute expiry time; an
absent or expired entry reads as the default `0`. -/

/-- Cache slot written by `cache.set(key, value, timeout)`: the counter
value together with the absolute time at which it expires. -/
structure CacheEntry where
  value : Nat
  expiresAt : Nat
deriving DecidableEq

/-- The Django cache, modelled as a per-key store of `CacheEntry`. -/
def Cache : Type := String → Option CacheEntry

/-- The cache with no keys set. -/
def emptyCache : Cache := fun _ => none

/-- Model of `cache.get(k, 0)` read at absolute time `now`: an absent or
expired entry reads as the default `0`. -/
def cacheGet (c : Cache) (k : String) (now : Nat) : Nat :=
  match c k with
  | some e => if now < e.expiresAt then e.value else 0
  | none => 0

/-- Model of `cache.set(k, v, timeout)` issued at a moment when the entry
will expire at absolute time `expiresAt`. -/
def cacheSet (c : Cache) (k : String) (v : Nat) (expiresAt : Nat) : Cache :=
  fun k2 => if k2 = k then some ⟨v, expiresAt⟩ else c k2

/-! ## RateLimiter (openai_service.py 17-43) -/

/-- Configuration of `RateLimiter.__init__` (openai_service.py 20-22). -/
structure RateLimiter where
  max_requests : Nat
  window_seconds : Nat

/-- Model of `RateLimiter.is_allowed` (openai_service.py 24-37).  The cache
state and the current time are threaded explicitly; the return value is the
Python `(is_allowed, remaining_requests)` pair together with the cache after
the call.  A denied call returns `(False, 0)` without writing; an admitted
call writes `current + 1` with a fresh expiry of `window_seconds`. -/
def RateLimiter.is_allowed (rl : RateLimiter) (c : Cache) (key : String) (now : Nat) :
    (Bool × Nat) × Cache :=
  let cache_key := "rate_limit:" ++ key
  let current := cacheGet c cache_key now
  if rl.max_requests ≤ current then
    ((false, 0), c)
  else
    ((true, rl.max_requests - (current + 1)),
     cacheSet c cache_key (current + 1) (now + rl.window_seconds))

/-- Model of `RateLimiter.get_remaining` (openai_service.py 39-43); the
Python `max(0, max_requests - current)` is truncated subtraction on `Nat`. -/
def RateLimiter.get_remaining (rl : RateLimiter) (c : Cache) (key : String) (now : Nat) : Nat :=
  rl.max_requests - cacheGet c ("rate_limit:" ++ key) now

/-- Folding `is_allowed` over a sequence of call times for one key, used to
state properties about consecutive calls. -/
def allowRun (rl : RateLimiter) (key : String) :
    List Nat → Cache → List (Bool × Nat) × Cache
  | [], c => ([], c)
  | t :: ts, c =>
    let step := rl.is_allowed c key t
    let rest := allowRun rl key ts step.2
    (step.1 :: rest.1, rest.2)

/-- Concrete cache with the counter for key `u` saturated at 20, the state
after 20 admitted requests within the window. -/
def sampleFullCache : Cache := cacheSet emptyCache "rate_limit:u" 20 100

/-! ## Threat-boolean heuristic (openai_service.py 514-548) -/

/-- Threat-indicator vocabulary of `_detect_threat_in_text`
(openai_service.py 518-528); every pattern is a plain literal regex. -/
def threat_indicators : List String :=
  ["threat", "malicious", "phishing", "suspicious", "attack",
   "vulnerability", "dangerous", "compromised", "fraudulent"]

/-- Safe-phrase list of `_detect_threat_in_text` (openai_service.py
530-536). -/
def safe_indicators : List String :=
  ["no threat", "no security", "appears safe", "legitimate", "benign"]

/-- Model of `OpenAIMediaAnalyzer._detect_threat_in_text` (openai_service.py
514-548): lower-case the text; any safe phrase forces `false`; otherwise the
text counts as a threat iff at least two distinct indicator patterns occur. -/
def detect_threat_in_text (text : String) : Bool :=
  let text_lower := strLower text
  if safe_indicators.any (fun p => strContains text_lower p) then false
  else decide (2 ≤ threat_indicators.countP (fun p => strContains text_lower p))

/-! ## Structured-data extraction
(openai_service.py 119-182, 307-359, 410-447; services.py 122-152)

The Python code locates the first brace-delimited span of the model response
with `re.search` under `re.DOTALL` and decodes it with `json.loads`; that
external decoding step is modelled by an `Option ExtractedData` input —
`some d` when a span parses, `none` otherwise.  Likewise the pure-regex
fallback of `_parse_text_response` (lines 427-447), whose internals no claim
depends on, is modelled by an explicit `heuristic` input, and the result of
`_extract_risk_score` (lines 469-512) by an `Option Int` input. -/

/-- Dictionary of expected fields recovered from a model response — the
shape shared by `_parse_text_response` and `_parse_analysis`. -/
structure ExtractedData where
  risk_score : Option Int
  is_threat : Option Bool
  recommendations : Option String
deriving DecidableEq

/-- Model of `_parse_text_response` (openai_service.py 410-447): when the
brace span decodes (`jsonSpan = some d`) its dictionary is returned
immediately (lines 421-422); otherwise the regex-fallback dictionary is
returned. -/
def parse_text_response (jsonSpan : Option ExtractedData) (heuristic : ExtractedData) :
    ExtractedData :=
  match jsonSpan with
  | some d => d
  | none => heuristic

/-- Model of the response-resolution step of `_analyze_text`
(openai_service.py 160-182): decode the brace span, falling back to
`_parse_text_response`; the surfaced fields are `data.get('risk_score', 50)`
and `data.get('is_threat', False)` (lines 178-179) — with no clamping. -/
def analyze_text_result (jsonSpan : Option ExtractedData) (heuristic : ExtractedData) :
    Int × Bool :=
  let data := parse_text_response jsonSpan heuristic
  (data.risk_score.getD 50, data.is_threat.getD false)

/-- Model of the risk/threat resolution of `_analyze_image`
(openai_service.py 307-359): structured data from `_parse_text_response`,
the threat heuristic over the full analysis text, the directly extracted
score, the three-way priority JSON > direct extraction > threat-derived
default (lines 323-332), the clamp to [0,100] (line 335), and the final
`data.get('is_threat', False) or is_threat` combination (line 344). -/
def analyze_image_result (analysis_text : String) (jsonSpan : Option ExtractedData)
    (heuristic : ExtractedData) (extracted_risk_score : Option Int) : Int × Bool :=
  let data := parse_text_response jsonSpan heuristic
  let is_threat := detect_threat_in_text analysis_text
  let final0 : Int :=
    match data.risk_score with
    | some v => v
    | none =>
      match extracted_risk_score with
      | some v => v
      | none => if is_threat then 75 else 25
  let final_risk_score := max 0 (min 100 final0)
  let final_is_threat := data.is_threat.getD false || is_threat
  (final_risk_score, final_is_threat)

/-- Model of `ThreatAnalyzer._parse_analysis` (services.py 122-152),
restricted to the risk score: the decoded JSON value
(`float(data.get('risk_score', 50))`, line 130) or the regex fallback
(the digits after `risk_score`, lines 140-141, modelled as an optional
numeral) — in both cases with no clamping. -/
def parse_analysis_risk (jsonSpan : Option ExtractedData) (fallback_digits : Option Nat) : Int :=
  match jsonSpan with
  | some d => d.risk_score.getD 50
  | none => (fallback_digits.getD 50 : Nat)

/-- Analysis text of the C2 counterexample: prose containing threat
keywords around a JSON object asserting `is_threat: false`. -/
def c2_analysis_text : String :=
  "Indicators: phishing and malicious content. \x7b\"risk_score\": 87, \"is_threat\": false\x7d"

/-- Decoded JSON span of `c2_analysis_text`. -/
def c2_json : ExtractedData := ⟨some 87, some false, none⟩

/-! ## Sandbox probe (services.py 155-447) -/

/-- Attributes of one `input`/`textarea`/`select` element that the form loop
reads (services.py 301-327): `ftype` models
`input_field.get('type', 'text').lower()` (already defaulted and
lower-cased), `value` the optional declared `value` attribute, `checked` and
`required` the presence of those attributes. -/
structure InputField where
  name : String
  ftype : String
  value : Option String
  checked : Bool
  required : Bool
deriving DecidableEq

/-- Model of the decoy-credential synthesis for a single field
(services.py 311-327): the successive `elif` keyword categories over the
lower-cased field name, then the hidden / checkbox-radio / generic
fallbacks; `none` when the field contributes no payload entry (empty name,
or unchecked checkbox/radio). -/
def fill_field (f : InputField) : Option (String × String) :=
  let lower := strLower f.name
  if f.name = "" then none
  else if ["email", "username", "user", "login"].any (fun kw => strContains lower kw) then
    some (f.name, "sandbox_test_user@phishlense.com")
  else if ["password", "pwd", "pass"].any (fun kw => strContains lower kw) then
    some (f.name, "FakePassword123!")
  else if ["card", "credit", "cvv", "cvc"].any (fun kw => strContains lower kw) then
    some (f.name, if strContains lower "card" then "4111111111111111" else "123")
  else if ["phone", "mobile", "tel"].any (fun kw => strContains lower kw) then
    some (f.name, "+1-555-0100")
  else if f.ftype = "hidden" then
    some (f.name, f.value.getD "")
  else if f.ftype = "checkbox" ∨ f.ftype = "radio" then
    if f.checked then some (f.name, f.value.getD "on") else none
  else
    some (f.name, "test_" ++ f.name)

/-- Model of the `form_payload` dictionary built over a form's fields
(services.py 300-327); for distinct field names the dictionary is the
association list of the per-field entries. -/
def form_payload (fields : List InputField) : List (String × String) :=
  fields.filterMap fill_field

/-- Redirect record appended by `_execute_url` (services.py 277-281); the
Python keys are `from`, `to` and `status`. -/
structure Redirect where
  from_url : String
  to_url : String
  status : Nat
deriving DecidableEq

/-- One entry of `form_data['fields']` (services.py 305-309). -/
structure FieldDescriptor where
  name : String
  ftype : String
  required : Bool
deriving DecidableEq

/-- The `form_data` record appended to `forms_found`
(services.py 293-297, 305-309, 329). -/
structure FormDescriptor where
  action : String
  method : String
  fields : List FieldDescriptor
deriving DecidableEq

/-- The `results` dictionary threaded through `SandboxExecutor`
(services.py 174-181, 242-249). -/
structure SandboxResult where
  success : Bool
  actions_taken : List String
  observations : List String
  redirects : List Redirect
  forms_found : List FormDescriptor
  errors : List String
deriving DecidableEq

/-- An HTML `form` element as exposed by the BeautifulSoup collaborator:
its (defaulted) `action`, its upper-cased `method`, and its fields. -/
structure FormTag where
  action : String
  method : String
  fields : List InputField

/-- HTTP response fields read by `_execute_url` (services.py 261-287): the
status code, the `Location` header (`headers.get('Location', '')`), the
`Content-Type` header, and — for HTML bodies — the parsed form elements and
visible page text exposed by the BeautifulSoup collaborator. -/
structure HttpResponse where
  status : Nat
  location : String
  content_type : String
  forms : List FormTag
  page_text : String

/-- Outcome of one `requests.get` call inside the redirect loop, matching
the except-clause taxonomy of services.py 404-438. -/
inductive FetchOutcome where
  | ok (r : HttpResponse)
  | timeout
  | connError (msg : String)
  | reqError (msg : String)
  | otherError (msg : String)

/-- The `form_data` descriptor built for one form (services.py 293-309). -/
def formDescriptor (form : FormTag) : FormDescriptor :=
  ⟨form.action, form.method, form.fields.map (fun f => ⟨f.name, f.ftype, f.required⟩)⟩

/-- Model of `urllib.parse.urljoin` (an external collaborator) restricted to
what these claims exercise: an absolute target replaces the base; anything
else is resolved naively by concatenation. -/
def urljoin (base target : String) : String :=
  if strContains target "://" then target else base ++ target

/-- One pass of the redirect loop of `_execute_url` (services.py 259-438),
with `fuel` the remaining iteration budget `max_redirects - redirect_count`.
The network is the oracle `fetch`.  On the terminal HTML case the model
records the discovered forms (lines 291-330); the form-submission sub-step
(332-384) and the per-form suspicious-pattern scan (386-397), which issue
further network calls and observations that no claim depends on, are
elided.  Each `except` handler appends its entries and breaks with
`success := true` exactly as lines 404-438 do. -/
def urlLoop (fetch : String → FetchOutcome) (timeout : Nat) :
    Nat → String → SandboxResult → SandboxResult
  | 0, _, acc => acc
  | fuel + 1, current_url, acc =>
    match fetch current_url with
    | .ok r =>
      let acc := { acc with
        actions_taken := acc.actions_taken ++ ["✅ Successfully accessed URL: " ++ current_url],
        observations := acc.observations ++ ["HTTP Status: " ++ toString r.status] }
      if (r.status = 301 ∨ r.status = 302 ∨ r.status = 303 ∨ r.status = 307 ∨ r.status = 308)
          ∧ r.location ≠ "" then
        urlLoop fetch timeout fuel (urljoin current_url r.location)
          { acc with redirects := acc.redirects ++ [⟨current_url, r.location, r.status⟩] }
      else if strContains r.content_type "text/html" then
        r.forms.foldl (fun a form =>
          { a with
            forms_found := a.forms_found ++ [formDescriptor form],
            actions_taken := a.actions_taken ++
              ["Found form with " ++ toString form.fields.length ++ " fields"] }) acc
      else
        { acc with observations := acc.observations ++
            ["Response is not HTML (Content-Type: " ++ r.content_type ++ ")"] }
    | .timeout =>
      { acc with
        actions_taken := acc.actions_taken ++ ["⏱️ Request to " ++ current_url ++ " timed out"],
        observations := acc.observations ++ ["⚠️ URL did not respond within timeout period"],
        errors := acc.errors ++
          ["Request to " ++ current_url ++ " timed out after " ++ toString timeout ++ "s"],
        success := true }
    | .connError msg =>
      let acc := { acc with
        actions_taken := acc.actions_taken ++ ["❌ Failed to connect to " ++ current_url] }
      let acc :=
        if strContains msg "NameResolutionError" || strContains msg "Failed to resolve" then
          { acc with observations := acc.observations ++
              ["🚨 DNS resolution failed - domain does not exist or is unreachable",
               "⚠️ This could indicate: fake domain, typo-squatting, or malicious site"] }
        else if strContains msg "Connection refused" then
          { acc with observations := acc.observations ++
              ["🚨 Connection refused - server is not accepting connections"] }
        else
          { acc with observations := acc.observations ++ ["⚠️ Connection error: " ++ msg] }
      { acc with errors := acc.errors ++ ["Connection error: " ++ msg], success := true }
    | .reqError msg =>
      { acc with
        actions_taken := acc.actions_taken ++ ["❌ Request to " ++ current_url ++ " failed"],
        observations := acc.observations ++ ["⚠️ Request error: " ++ msg],
        errors := acc.errors ++ ["Request error: " ++ msg],
        success := true }
    | .otherError msg =>
      { acc with
        actions_taken := acc.actions_taken ++ ["❌ Unexpected error accessing " ++ current_url],
        observations := acc.observations ++ ["⚠️ Unexpected error: " ++ msg],
        errors := acc.errors ++ ["Unexpected error: " ++ msg],
        success := true }

/-- Model of `SandboxExecutor._execute_url` (services.py 218-447): the
URL-format normalization (222-239), the bounded redirect loop (259-438)
driven by the `fetch` oracle, and the closing redirect-count observation
(440).  `content` is the already-stripped `threat.content`.  The outer
catch-all (442-445) guards statements that cannot fail in the model and is
not represented. -/
def execute_url (fetch : String → FetchOutcome) (timeout max_redirects : Nat)
    (content : String) : SandboxResult :=
  let url := content
  let normalized : Option String :=
    if strBeginsWith url "http://" || strBeginsWith url "https://" then some url
    else if strBeginsWith url "www." then some ("http://" ++ url)
    else if !(strContains url "://") then
      (if strContains url "." && !(strBeginsWith url "/") then some ("http://" ++ url)
       else none)
    else some url
  match normalized with
  | none =>
    { success := false, actions_taken := [],
      observations := ["Invalid URL format: " ++ url], redirects := [], forms_found := [],
      errors := ["URL must start with http:// or https://"] }
  | some u =>
    let results : SandboxResult :=
      { success := true, actions_taken := ["Attempting to access URL: " ++ u],
        observations := [], redirects := [], forms_found := [], errors := [] }
    let results := urlLoop fetch timeout max_redirects u results
    { results with observations := results.observations ++
        ["Total redirects followed: " ++ toString results.redirects.length] }

/-! ## Sandbox lifecycle (services.py 162-216, models.py 13-42) -/

/-- Status values of `ThreatStatus` (models.py 13-18). -/
inductive ThreatStatus where
  | pending
  | analyzing
  | executing
  | completed
  | error
deriving DecidableEq

/-- The slice of a `Threat` row touched by `SandboxExecutor.execute`
(services.py 162-216), together with the timeline event types appended. -/
structure ThreatState where
  status : ThreatStatus
  sandbox_executed : Bool
  sandbox_results : Option SandboxResult
  actions_taken : List String
  observations : String
  timeline : List String
deriving DecidableEq

/-- Outcome of the body of the `try` block of `execute` (services.py
183-189): either the probe returns a `SandboxResult`, or an exception
escapes it (for example `threat.content` being unset makes `_execute_url`
raise at line 220, before its own handlers apply). -/
inductive RunOutcome where
  | ok (r : SandboxResult)
  | exn (msg : String)

/-- Model of `SandboxExecutor.execute` (services.py 162-216): append the
started event and move to `executing` (165-172); on a completed probe set
`sandbox_executed := True`, copy the results, complete the status and
append the completion event (191-202); on an escaped exception record the
error on the initial results dictionary (174-181, 205), set status `error`
and append the error event (205-214) — without touching
`sandbox_executed`. -/
def SandboxExecutor.execute (outcome : RunOutcome) (t : ThreatState) :
    ThreatState × SandboxResult :=
  let t := { t with timeline := t.timeline ++ ["sandbox_execution_started"],
                    status := ThreatStatus.executing }
  match outcome with
  | .ok results =>
    ({ t with
        sandbox_executed := true,
        sandbox_results := some results,
        actions_taken := results.actions_taken,
        observations := String.intercalate "\n" results.observations,
        status := ThreatStatus.completed,
        timeline := t.timeline ++ ["sandbox_execution_completed"] },
     results)
  | .exn msg =>
    let results : SandboxResult :=
      { success := false, actions_taken := [], observations := [], redirects := [],
        forms_found := [], errors := [msg] }
    ({ t with
        sandbox_results := some results,
        status := ThreatStatus.error,
        timeline := t.timeline ++ ["sandbox_execution_error"] },
     results)

/-- Initial threat row as created by `Threat.objects.create` (models.py
28-42: status defaults to `pending`, `sandbox_executed` to `False`). -/
def freshThreat : ThreatState :=
  { status := .pending, sandbox_executed := false, sandbox_results := none,
    actions_taken := [], observations := "", timeline := [] }

/-- Fetch oracle for the C4 witness: every request fails with a
name-resolution connection error. -/
def dnsFailFetch : String → FetchOutcome :=
  fun _ => FetchOutcome.connError "Failed to resolve host bad.example"

/-- Fetch oracle for the C6 witness: every request answers 302 with a
`Location` header. -/
def always302Fetch : String → FetchOutcome :=
  fun _ => FetchOutcome.ok ⟨302, "/next", "", [], ""⟩

/-! ## Media-analysis view (media_views.py 32-167, openai_service.py
66-117) -/

/-- The slice of a `MediaAnalysis` row written by
`MediaAnalysisViewSet.create` (media_views.py 60-152, media_models.py). -/
structure MediaRecord where
  media_type : String
  text_content : String
  status : String
  error_message : String
  risk_score : Option Int
  is_threat : Bool
deriving DecidableEq

/-- Inner inputs of `_analyze_text` (openai_service.py 119-182) that a
non-rate-limited text request would consume: the decoded JSON span of the
model response and the regex-fallback dictionary. -/
structure TextAnalysisOracle where
  jsonSpan : Option ExtractedData
  heuristic : ExtractedData

/-- Outcome of `MediaAnalysisViewSet.create` for a `text` request: the
persisted record (when one was created), the HTTP status of the response,
the rate-limiter cache afterwards, and whether the OpenAI completion
collaborator was invoked. -/
structure CreateOutcome where
  record : Option MediaRecord
  http_status : Nat
  cache : Cache
  model_called : Bool

/-- Model of `MediaAnalysisViewSet.create` on the `media_type='text'` path
(media_views.py 32-167) composed with `OpenAIMediaAnalyzer.analyze`
(openai_service.py 66-117) and `_analyze_text` (119-182); the file-upload
branches (54-58, 75-111) do not apply to a text request.  The record is
created with status `analyzing` (61-69) before the rate-limit check inside
`analyze` (80-90); a failed analysis — including `Rate limit exceeded` —
flips it to `error` (141-152) and answers HTTP 400 (157-165); a successful
analysis completes it (131-140, 152) and answers 201 (167). -/
def media_create (media_type text_content : String) (rl : RateLimiter) (c : Cache)
    (user_key : String) (now : Nat) (oracle : TextAnalysisOracle) : CreateOutcome :=
  if media_type = "" then
    { record := none, http_status := 400, cache := c, model_called := false }
  else if media_type = "text" ∧ text_content = "" then
    { record := none, http_status := 400, cache := c, model_called := false }
  else
    let rec0 : MediaRecord :=
      { media_type := media_type, text_content := text_content, status := "analyzing",
        error_message := "", risk_score := none, is_threat := false }
    let gate := rl.is_allowed c user_key now
    if (gate.1).1 = false then
      let limited := { rec0 with status := "error", error_message := "Rate limit exceeded" }
      { record := some limited, http_status := 400, cache := gate.2, model_called := false }
    else if text_content = "" then
      let invalid := { rec0 with status := "error", error_message := "No text content provided" }
      { record := some invalid, http_status := 400, cache := gate.2, model_called := false }
    else
      let res := analyze_text_result oracle.jsonSpan oracle.heuristic
      let done := { rec0 with status := "completed", risk_score := some res.1, is_threat := res.2 }
      { record := some done, http_status := 201, cache := gate.2, model_called := true }

/-- Concrete exhausted rate-limit state for the C9 theorems: the counter
for user key `u7` already sits at the quota of 20. -/
def exhaustedCache : Cache := cacheSet emptyCache "rate_limit:u7" 20 3600

/-!
# Theorems

One theorem (plus witness or counterexample where required) per claim, in
claim order, with shared helper lemmas first.
-/

/-! ## Helper lemmas -/

lemma cacheGet_cacheSet_same (c : Cache) (k : String) (v e now : Nat) :
    cacheGet (cacheSet c k v e) k now = if now < e then v else 0 := by
  simp [cacheGet, cacheSet]

lemma is_allowed_of_lt (rl : RateLimiter) (c : Cache) (key : String) (now : Nat)
    (h : cacheGet c ("rate_limit:" ++ key) now < rl.max_requests) :
    rl.is_allowed c key now =
      ((true, rl.max_requests - (cacheGet c ("rate_limit:" ++ key) now + 1)),
       cacheSet c ("rate_limit:" ++ key)
         (cacheGet c ("rate_limit:" ++ key) now + 1) (now + rl.window_seconds)) := by
  simp [RateLimiter.is_allowed, Nat.not_le.mpr h]

lemma is_allowed_of_ge (rl : RateLimiter) (c : Cache) (key : String) (now : Nat)
    (h : rl.max_requests ≤ cacheGet c ("rate_limit:" ++ key) now) :
    rl.is_allowed c key now = ((false, 0), c) := by
  simp [RateLimiter.is_allowed, h]

/-- Invariant of a run of calls at time `0` from a cache holding counter `i`
for the key: while `i + n` stays within the quota every call is admitted,
the counter afterwards reads `i + n`, and (when at least one write happened)
the counter reads `0` again from `window_seconds` onwards. -/
lemma allowRun_inv (rl : RateLimiter) (key : String) (hw : 0 < rl.window_seconds) :
    ∀ (n : Nat) (c : Cache) (i : Nat),
      cacheGet c ("rate_limit:" ++ key) 0 = i → i + n ≤ rl.max_requests →
      (∀ p ∈ (allowRun rl key (List.replicate n 0) c).1, p.1 = true) ∧
      cacheGet (allowRun rl key (List.replicate n 0) c).2 ("rate_limit:" ++ key) 0 = i + n ∧
      (n = 0 ∨ ∀ now2, rl.window_seconds ≤ now2 →
        cacheGet (allowRun rl key (List.replicate n 0) c).2 ("rate_limit:" ++ key) now2 = 0) := by
  intro n
  induction n with
  | zero =>
    intro c i hc _
    simp [allowRun, hc]
  | succ m ih =>
    intro c i hc hle
    have hlt : cacheGet c ("rate_limit:" ++ key) 0 < rl.max_requests := by omega
    have hstep := is_allowed_of_lt rl c key 0 hlt
    have hc2 : cacheGet (cacheSet c ("rate_limit:" ++ key) (i + 1) (0 + rl.window_seconds))
        ("rate_limit:" ++ key) 0 = i + 1 := by
      rw [cacheGet_cacheSet_same]
      simp [hw]
    have hrest := ih (cacheSet c ("rate_limit:" ++ key) (i + 1) (0 + rl.window_seconds))
      (i + 1) hc2 (by omega)
    rw [List.replicate_succ]
    simp only [allowRun, hstep, hc]
    refine ⟨?_, ?_, ?_⟩
    · intro p hp
      rcases List.mem_cons.mp hp with h1 | h2
      · rw [h1]
      · exact hrest.1 p h2
    · rw [hrest.2.1]; omega
    · right
      intro now2 hnow2
      rcases hrest.2.2 with hm0 | hexp
      · subst hm0
        simp only [allowRun]
        rw [cacheGet_cacheSet_same, if_neg (by omega)]
      · exact hexp now2 hnow2

/-- Every iteration of the redirect loop under an all-302 fetch oracle
appends exactly one redirect entry and consumes exactly one unit of fuel. -/
lemma urlLoop_redirects_length (fetch : String → FetchOutcome) (timeout : Nat)
    (h : ∀ u, ∃ r, fetch u = FetchOutcome.ok r ∧ r.status = 302 ∧ r.location ≠ "") :
    ∀ (fuel : Nat) (current : String) (acc : SandboxResult),
      (urlLoop fetch timeout fuel current acc).redirects.length =
        acc.redirects.length + fuel := by
  intro fuel
  induction fuel with
  | zero => intro current acc; simp [urlLoop]
  | succ n ih =>
    intro current acc
    obtain ⟨r, hr, hs, hl⟩ := h current
    rw [urlLoop, hr]
    simp only
    rw [if_pos ⟨Or.inr (Or.inl hs), hl⟩]
    rw [ih]
    simp
    omega

/-! ## C1 -/

/-- C1 counterexample: a model response whose JSON span decodes to
`risk_score = 150` is surfaced unclamped both by the text-analysis path
(openai_service.py line 178) and by the threat-analysis path (services.py
line 130); the surfaced score violates `risk_score ≤ 100`. -/
theorem risk_score_unclamped_counterexample :
    (analyze_text_result (some ⟨some 150, none, none⟩) ⟨none, none, none⟩).1 = 150 ∧
    parse_analysis_risk (some ⟨some 150, none, none⟩) none = 150 ∧
    ¬ ((analyze_text_result (some ⟨some 150, none, none⟩) ⟨none, none, none⟩).1 ≤ 100) := by
  refine ⟨rfl, rfl, by decide⟩

/-- C1 amended: the image-analysis path clamps its resolved risk score into
[0,100] for every input (openai_service.py line 335); the text-analysis and
threat-analysis paths surface the extracted value without clamping. -/
theorem image_risk_score_clamped (analysis_text : String) (jsonSpan : Option ExtractedData)
    (heuristic : ExtractedData) (extracted : Option Int) :
    0 ≤ (analyze_image_result analysis_text jsonSpan heuristic extracted).1 ∧
    (analyze_image_result analysis_text jsonSpan heuristic extracted).1 ≤ 100 :=
  ⟨le_max_left 0 _, max_le (by norm_num) (min_le_left 100 _)⟩

/-! ## C2 -/

/-- C2 counterexample: on `c2_analysis_text` the JSON span decodes with
`is_threat = false`, yet `_analyze_image` surfaces `is_threat = true`:
line 344 ORs the prose keyword heuristic into the JSON value, so the
heuristic does alter the returned `is_threat`. -/
theorem json_is_threat_overridden_counterexample :
    c2_json.is_threat = some false ∧
    analyze_image_result c2_analysis_text (some c2_json) ⟨none, none, none⟩ none = (87, true) := by
  exact ⟨rfl, by decide⟩

/-- C2 amended: when the brace span decodes, `_parse_text_response` returns
exactly the decoded dictionary, and the image path surfaces the JSON
`risk_score` (clamped) untouched by any heuristic; the returned `is_threat`,
however, is the OR of the JSON value and the prose keyword heuristic, so a
JSON `is_threat` of `false` can be overridden to `true`. -/
theorem json_priority_amended (analysis_text : String) (d heuristic : ExtractedData)
    (extracted : Option Int) :
    parse_text_response (some d) heuristic = d ∧
    (∀ v : Int, d.risk_score = some v →
      (analyze_image_result analysis_text (some d) heuristic extracted).1 = max 0 (min 100 v)) ∧
    (analyze_image_result analysis_text (some d) heuristic extracted).2 =
      (d.is_threat.getD false || detect_threat_in_text analysis_text) := by
  refine ⟨rfl, ?_, rfl⟩
  intro v hv
  simp [analyze_image_result, parse_text_response, hv]

/-- Witness for C2 amended at a concrete dictionary: the JSON score 87 is
surfaced as `max 0 (min 100 87)`. -/
theorem json_priority_amended_witness :
    (analyze_image_result "x" (some ⟨some 87, some false, none⟩)
      ⟨none, none, none⟩ none).1 = max 0 (min 100 87) :=
  ((json_priority_amended "x" ⟨some 87, some false, none⟩ ⟨none, none, none⟩ none).2.1) 87 rfl

/-! ## C3 -/

/-- C3 counterexample: when the probe body raises, `execute` returns with
`sandbox_executed` still `false` (and status `error`) — on the error path
the flag is not set, contrary to the claim. -/
theorem sandbox_executed_error_path_counterexample :
    ((SandboxExecutor.execute (.exn "boom") freshThreat).1).sandbox_executed = false ∧
    ((SandboxExecutor.execute (.exn "boom") freshThreat).1).status = ThreatStatus.error :=
  ⟨rfl, rfl⟩

/-- C3 amended: the success path of `execute` always sets
`sandbox_executed` to `true` (regardless of the probe's own `success`
flag), while the exception path leaves the flag unchanged — so it remains
`false` for a first run that ends in an escaped exception — and marks the
status `error`. -/
theorem sandbox_executed_amended (t : ThreatState) (r : SandboxResult) (msg : String) :
    ((SandboxExecutor.execute (.ok r) t).1).sandbox_executed = true ∧
    ((SandboxExecutor.execute (.exn msg) t).1).sandbox_executed = t.sandbox_executed ∧
    ((SandboxExecutor.execute (.exn msg) t).1).status = ThreatStatus.error :=
  ⟨rfl, rfl, rfl⟩

/-! ## C4 -/

/-- C4: a probe whose first fetch raises a DNS/name-resolution connection
error still ends with `success = true`, and the observations flag the
unreachable domain and possible typo-squatting — the failure is informative,
not fatal. -/
theorem dns_failure_is_informative (fetch : String → FetchOutcome)
    (timeout max_redirects : Nat) (url msg : String)
    (hurl : strBeginsWith url "http://" = true)
    (hfuel : 1 ≤ max_redirects)
    (hfetch : fetch url = FetchOutcome.connError msg)
    (hdns : (strContains msg "NameResolutionError" || strContains msg "Failed to resolve")
      = true) :
    (execute_url fetch timeout max_redirects url).success = true ∧
    "🚨 DNS resolution failed - domain does not exist or is unreachable"
      ∈ (execute_url fetch timeout max_redirects url).observations ∧
    "⚠️ This could indicate: fake domain, typo-squatting, or malicious site"
      ∈ (execute_url fetch timeout max_redirects url).observations := by
  obtain ⟨fuel, rfl⟩ : ∃ f, max_redirects = f + 1 := ⟨max_redirects - 1, by omega⟩
  simp only [execute_url, hurl, Bool.true_or, if_true]
  rw [urlLoop, hfetch]
  simp only [hdns, if_true]
  refine ⟨?_, ?_, ?_⟩ <;> simp

/-- Witness for C4: a concrete probe of `http://bad.example` against an
oracle that always fails name resolution. -/
theorem dns_failure_is_informative_witness :
    (execute_url dnsFailFetch 30 5 "http://bad.example").success = true ∧
    "🚨 DNS resolution failed - domain does not exist or is unreachable"
      ∈ (execute_url dnsFailFetch 30 5 "http://bad.example").observations ∧
    "⚠️ This could indicate: fake domain, typo-squatting, or malicious site"
      ∈ (execute_url dnsFailFetch 30 5 "http://bad.example").observations :=
  dns_failure_is_informative dnsFailFetch 30 5 "http://bad.example"
    "Failed to resolve host bad.example" (by decide) (by norm_num) rfl (by decide)

/-! ## C6 -/

/-- C6: when every fetch answers 302 with a `Location` header, the redirect
loop stops after exactly `max_redirects` iterations and the result holds
exactly `max_redirects` redirect entries. -/
theorem always_302_redirect_bound (fetch : String → FetchOutcome)
    (timeout max_redirects : Nat) (url : String)
    (hurl : strBeginsWith url "http://" = true)
    (h : ∀ u, ∃ r, fetch u = FetchOutcome.ok r ∧ r.status = 302 ∧ r.location ≠ "") :
    (execute_url fetch timeout max_redirects url).redirects.length = max_redirects := by
  simp only [execute_url, hurl, Bool.true_or, if_true]
  rw [urlLoop_redirects_length fetch timeout h]
  simp

/-- Witness for C6: probing `http://a.example` against an always-302 oracle
with `max_redirects = 3` records exactly 3 redirects. -/
theorem always_302_redirect_bound_witness :
    (execute_url always302Fetch 30 3 "http://a.example").redirects.length = 3 :=
  always_302_redirect_bound always302Fetch 30 3 "http://a.example" (by decide)
    (fun _ => ⟨⟨302, "/next", "", [], ""⟩, rfl, rfl, by decide⟩)

/-! ## C7 -/

/-- C7: a safe phrase forces the threat-boolean heuristic to `false`
regardless of keyword count; absent any safe phrase, the heuristic returns
`true` iff at least two distinct threat keywords occur in the text. -/
theorem detect_threat_safe_phrase_precedence (text : String) :
    ((∃ p ∈ safe_indicators, strContains (strLower text) p = true) →
      detect_threat_in_text text = false) ∧
    ((∀ p ∈ safe_indicators, strContains (strLower text) p = false) →
      (detect_threat_in_text text = true ↔
        2 ≤ threat_indicators.countP (fun p => strContains (strLower text) p))) := by
  constructor
  · rintro ⟨p, hp, hc⟩
    have hany : safe_indicators.any (fun p => strContains (strLower text) p) = true :=
      List.any_eq_true.mpr ⟨p, hp, hc⟩
    simp [detect_threat_in_text, hany]
  · intro h
    have hany : safe_indicators.any (fun p => strContains (strLower text) p) = false := by
      rw [List.any_eq_false]
      intro p hp
      rw [h p hp]
      exact Bool.false_ne_true
    simp [detect_threat_in_text, hany]

/-- Witness for C7 at two concrete texts: two threat keywords classify as a
threat, and adding the safe phrase `benign` overrides them to `false`. -/
theorem detect_threat_safe_phrase_precedence_witness :
    detect_threat_in_text "phishing attack ahead" = true ∧
    detect_threat_in_text "benign phishing attack ahead" = false := by
  constructor
  · exact ((detect_threat_safe_phrase_precedence "phishing attack ahead").2
      (by decide)).mpr (by decide)
  · exact (detect_threat_safe_phrase_precedence "benign phishing attack ahead").1
      ⟨"benign", by decide, by decide⟩

/-! ## C8 -/

/-- C8: a discovered form with a text field `email`, a text field
`password` and a hidden field `cc_number` carrying declared value `4111` is
filled with the decoy email, the decoy password, and the hidden field's
declared value — the hidden field copies its declared default rather than
receiving a category-heuristic decoy. -/
theorem hidden_field_payload :
    form_payload
      [⟨"email", "text", none, false, false⟩,
       ⟨"password", "text", none, false, false⟩,
       ⟨"cc_number", "hidden", some "4111", false, false⟩] =
      [("email", "sandbox_test_user@phishlense.com"),
       ("password", "FakePassword123!"),
       ("cc_number", "4111")] := by
  decide

/-! ## C9 -/

/-- C9 counterexample: with the quota for user key `u7` exhausted, the
create view still creates a `MediaAnalysis` record and mutates its status to
`error` — the rate-limited request does not leave persisted state
untouched. -/
theorem rate_limited_creates_record_counterexample :
    (media_create "text" "hello" ⟨20, 3600⟩ exhaustedCache "u7" 0
      ⟨none, ⟨none, none, none⟩⟩).record =
      some { media_type := "text", text_content := "hello", status := "error",
             error_message := "Rate limit exceeded", risk_score := none,
             is_threat := false } ∧
    (media_create "text" "hello" ⟨20, 3600⟩ exhaustedCache "u7" 0
      ⟨none, ⟨none, none, none⟩⟩).record ≠ none := by
  constructor
  · decide
  · decide

/-- C9 amended: a rate-limited text request makes no model call, consumes no
quota (the cache is unchanged) and surfaces the error as HTTP 400 — but it
does create a `MediaAnalysis` record, transitioning it `analyzing` → `error`
with the rate-limit message. -/
theorem rate_limited_amended (rl : RateLimiter) (c : Cache) (user_key text : String)
    (now : Nat) (oracle : TextAnalysisOracle)
    (h : rl.max_requests ≤ cacheGet c ("rate_limit:" ++ user_key) now)
    (ht : text ≠ "") :
    (media_create "text" text rl c user_key now oracle).record =
      some { media_type := "text", text_content := text, status := "error",
             error_message := "Rate limit exceeded", risk_score := none,
             is_threat := false } ∧
    (media_create "text" text rl c user_key now oracle).http_status = 400 ∧
    (media_create "text" text rl c user_key now oracle).model_called = false ∧
    (media_create "text" text rl c user_key now oracle).cache = c := by
  have hgate := is_allowed_of_ge rl c user_key now h
  simp [media_create, hgate, ht]

/-- Witness for C9 amended at the concrete exhausted state. -/
theorem rate_limited_amended_witness :
    (media_create "text" "hello" ⟨20, 3600⟩ exhaustedCache "u7" 0
      ⟨none, ⟨none, none, none⟩⟩).record =
      some { media_type := "text", text_content := "hello", status := "error",
             error_message := "Rate limit exceeded", risk_score := none,
             is_threat := false } ∧
    (media_create "text" "hello" ⟨20, 3600⟩ exhaustedCache "u7" 0
      ⟨none, ⟨none, none, none⟩⟩).http_status = 400 ∧
    (media_create "text" "hello" ⟨20, 3600⟩ exhaustedCache "u7" 0
      ⟨none, ⟨none, none, none⟩⟩).model_called = false ∧
    (media_create "text" "hello" ⟨20, 3600⟩ exhaustedCache "u7" 0
      ⟨none, ⟨none, none, none⟩⟩).cache = exhaustedCache :=
  rate_limited_amended ⟨20, 3600⟩ exhaustedCache "u7" "hello" 0
    ⟨none, ⟨none, none, none⟩⟩ (by decide) (by decide)

/-! ## C5 -/

/-- C5: with `max_requests = 20` and `window_seconds = 3600`, for any key
starting from an empty cache, each of 20 consecutive `is_allowed` calls is
admitted, the 21st is denied with `(False, 0)`, and a call issued once the
window's counter has expired (at time 3600) is admitted again. -/
theorem rate_limit_window_cycle (key : String) :
    (∀ p ∈ (allowRun ⟨20, 3600⟩ key (List.replicate 20 0) emptyCache).1, p.1 = true) ∧
    (RateLimiter.is_allowed ⟨20, 3600⟩
        (allowRun ⟨20, 3600⟩ key (List.replicate 20 0) emptyCache).2 key 0).1 = (false, 0) ∧
    ((RateLimiter.is_allowed ⟨20, 3600⟩
        (RateLimiter.is_allowed ⟨20, 3600⟩
          (allowRun ⟨20, 3600⟩ key (List.replicate 20 0) emptyCache).2 key 0).2 key 3600).1).1
      = true := by
  have hinv := allowRun_inv ⟨20, 3600⟩ key (by norm_num) 20 emptyCache 0 rfl (by norm_num)
  have hcount := hinv.2.1
  have hdeny : RateLimiter.is_allowed ⟨20, 3600⟩
      (allowRun ⟨20, 3600⟩ key (List.replicate 20 0) emptyCache).2 key 0 =
      ((false, 0), (allowRun ⟨20, 3600⟩ key (List.replicate 20 0) emptyCache).2) := by
    simp only [RateLimiter.is_allowed, hcount]
    norm_num
  have hexp : cacheGet (allowRun ⟨20, 3600⟩ key (List.replicate 20 0) emptyCache).2
      ("rate_limit:" ++ key) 3600 = 0 := by
    rcases hinv.2.2 with h0 | h
    · exact absurd h0 (by norm_num)
    · exact h 3600 (by norm_num)
  refine ⟨hinv.1, by rw [hdeny], ?_⟩
  rw [hdeny,
    is_allowed_of_lt ⟨20, 3600⟩ _ key 3600 (by rw [hexp]; norm_num)]

/-! ## C10 -/

/-- C10: a denied `is_allowed` call returns `(False, 0)` and leaves the
cache — hence the per-key counter and its expiry — completely unchanged:
denied requests never consume quota and never extend the window. -/
theorem is_allowed_denied_preserves_cache (rl : RateLimiter) (c : Cache) (key : String)
    (now : Nat) (h : rl.max_requests ≤ cacheGet c ("rate_limit:" ++ key) now) :
    rl.is_allowed c key now = ((false, 0), c) :=
  is_allowed_of_ge rl c key now h

/-- Witness for C10 at a concrete saturated state. -/
theorem is_allowed_denied_preserves_cache_witness :
    (⟨20, 3600⟩ : RateLimiter).is_allowed sampleFullCache "u" 0 = ((false, 0), sampleFullCache) :=
  is_allowed_denied_preserves_cache ⟨20, 3600⟩ sampleFullCache "u" 0 (by decide)

end PhishLense
